import Mathlib

/-!
Verification of the woundDome capture firmware against its design document.

The node firmware lives in `src/Arduino/AI_Thinker/AI_Thinker.ino` (current)
and `src/Arduino/cam_test.ino` (older revision).  The definitions below are a
shallow embedding of the routines the claims refer to: `captureAndSend`, the
capture block of `loop`, `handleCapture`, `mqttCallback` and `ensureMqtt`.
Hardware and network effects are abstracted into an environment record
(`CaptureEnv`) holding the outcome of each external call, and every publish is
recorded as an explicit `Msg` value.
-/

namespace WoundDome

/-- An MQTT publish: topic, payload and the retained flag, exactly the three
arguments of `mqtt.publish` in the firmware. -/
structure Msg where
  topic : String
  payload : String
  retained : Bool
deriving DecidableEq

/-- `topic_cmd` from both firmware files. -/
def topic_cmd : String := "esp32cam/cmd"

/-- `topic_url` from both firmware files. -/
def topic_url : String := "esp32cam/url"

/-- `topic_stat` from both firmware files. -/
def topic_stat : String := "esp32cam/status"

/-- The payload of `publishUrl()`: `"http://" + WiFi.localIP().toString() + "/latest.jpg"`,
published retained on `topic_url`. -/
def publishUrlMsg (ip : String) : Msg :=
  { topic := topic_url, payload := "http://" ++ ip ++ "/latest.jpg", retained := true }

/-- Outcome of the external calls one capture attempt makes:
whether `esp_camera_fb_get` returns a frame, the frame length `fb->len`,
whether `LittleFS.open` succeeds, the byte count returned by `f.write`,
and the HTTP response code of `http.POST` (negative values are the
HTTPClient transport-error codes). -/
structure CaptureEnv where
  fbOk : Bool
  fbLen : Nat
  fsOpenOk : Bool
  fsWriteLen : Nat
  httpCode : Int
deriving DecidableEq

namespace AIThinker

/-- Observable result of `captureAndSend` in `AI_Thinker.ino`: the returned
Bool, whether the filesystem branch ran (a frame was available), whether
`http.POST` was invoked, and the MQTT messages published inside the call. -/
structure CaptureResult where
  ret : Bool
  fsAttempted : Bool
  uploadAttempted : Bool
  published : List Msg
deriving DecidableEq

/-- `captureAndSend(fsPath, serverUrl, doUpload)` from `AI_Thinker.ino`.
If no frame is acquired it returns false at once.  Otherwise
`fsOk = (open succeeded and w == fb->len)`, `httpOk` starts as `!doUpload`
and becomes `(code == 200)` when the upload runs, `publishUrl()` fires only
when `fsOk`, and the return value is `fsOk && httpOk`. -/
def captureAndSend (ip : String) (env : CaptureEnv) (doUpload : Bool) : CaptureResult :=
  if env.fbOk = false then
    { ret := false, fsAttempted := false, uploadAttempted := false, published := [] }
  else
    let fsOk : Bool := env.fsOpenOk && decide (env.fsWriteLen = env.fbLen)
    let httpOk : Bool := if doUpload then decide (env.httpCode = 200) else true
    { ret := fsOk && httpOk
      fsAttempted := true
      uploadAttempted := doUpload
      published := if fsOk then [publishUrlMsg ip] else [] }

/-- The two volatile trigger flags of `AI_Thinker.ino`. -/
structure Flags where
  triggerMqttCapture : Bool
  triggerWebCapture : Bool
deriving DecidableEq

/-- Observable result of one pass through the capture block of `loop()`:
the flags afterwards, every message published, how many times
`captureAndSend` ran, and the `doUpload` argument it received (false when no
capture happened). -/
structure LoopResult where
  flags : Flags
  published : List Msg
  captures : Nat
  doUpload : Bool
deriving DecidableEq

/-- The capture block of `loop()` in `AI_Thinker.ino` (lines 304-318):
if either flag is set, `doUpload := triggerMqttCapture`, both flags are
cleared, `captureAndSend` runs once, and only when `doUpload` is true an
outcome report `"captured"`/`"capture_failed"` is published non-retained on
`topic_stat`. -/
def loopCaptureStep (ip : String) (env : CaptureEnv) (s : Flags) : LoopResult :=
  if s.triggerMqttCapture || s.triggerWebCapture then
    let doUpload := s.triggerMqttCapture
    let r := captureAndSend ip env doUpload
    let reports : List Msg :=
      if doUpload then
        [{ topic := topic_stat
           payload := if r.ret then "captured" else "capture_failed"
           retained := false }]
      else []
    { flags := { triggerMqttCapture := false, triggerWebCapture := false }
      published := r.published ++ reports
      captures := 1
      doUpload := doUpload }
  else
    { flags := s, published := [], captures := 0, doUpload := false }

/-- The outcome-report messages a network-triggered pass publishes: the
messages of `loopCaptureStep` on flags `(mqtt := true, web := false)`
restricted to `topic_stat`. -/
def networkReport (ip : String) (env : CaptureEnv) : List Msg :=
  (loopCaptureStep ip env { triggerMqttCapture := true, triggerWebCapture := false }).published.filter
    (fun m => m.topic == topic_stat)

/-- `handleCapture` in `AI_Thinker.ino`: sets `triggerWebCapture` and answers
302 with `Location: /`, touching nothing else. -/
def handleCapture (s : Flags) : Flags × Nat :=
  ({ s with triggerWebCapture := true }, 302)

end AIThinker

/-- Arduino `isspace` over the byte-derived chars of a payload: space, tab,
newline, vertical tab, form feed, carriage return. -/
def isSpaceChar (c : Char) : Bool :=
  c == ' ' || c == '\t' || c == '\n' || c == '\x0b' || c == '\x0c' || c == '\r'

/-- Arduino `String::trim()`: drop leading and trailing `isspace` characters. -/
def trimChars (l : List Char) : List Char :=
  ((l.dropWhile isSpaceChar).reverse.dropWhile isSpaceChar).reverse

/-- Arduino `tolower` on an ASCII byte char. -/
def lowerChar (c : Char) : Char :=
  if 'A' ≤ c ∧ c ≤ 'Z' then Char.ofNat (c.toNat + 32) else c

/-- The payload normalisation both `mqttCallback`s perform: accumulate the
payload bytes into a string, `trim()`, then `toLowerCase()`. -/
def normalizeMsg (payload : List Char) : List Char :=
  (trimChars payload).map lowerChar

namespace AIThinker

/-- `mqttCallback` in `AI_Thinker.ino`: when the topic is `topic_cmd` and the
trimmed, lowercased payload is `"capture"`, set `triggerMqttCapture`;
otherwise do nothing. -/
def mqttCallback (topic : String) (payload : List Char) (s : Flags) : Flags :=
  if topic = topic_cmd ∧ normalizeMsg payload = "capture".toList then
    { s with triggerMqttCapture := true }
  else s

/-- `mqtt.connected()` and the `lastMqttAttempt` global of `AI_Thinker.ino`. -/
structure ConnState where
  connected : Bool
  lastMqttAttempt : Nat
deriving DecidableEq

/-- `millis() - lastMqttAttempt` as the firmware computes it: unsigned-long
subtraction modulo 2^32. -/
def usub32 (a b : Nat) : Nat :=
  (a % 2 ^ 32 + 2 ^ 32 - b % 2 ^ 32) % 2 ^ 32

/-- Observable result of one call to `ensureMqtt` in `AI_Thinker.ino`. -/
structure EnsureResult where
  state : ConnState
  published : List Msg
  attempts : Nat
deriving DecidableEq

/-- `ensureMqtt` in `AI_Thinker.ino` (lines 170-191): return at once when
connected; return without attempting when fewer than 3000 ms have elapsed
since `lastMqttAttempt`; otherwise record the attempt time and try
`mqtt.connect` once (outcome `connectOk`).  On success it publishes
`"online"` retained on `topic_stat`, subscribes, and calls `publishUrl()`
(retained on `topic_url`). -/
def ensureMqtt (ip : String) (now : Nat) (connectOk : Bool) (s : ConnState) : EnsureResult :=
  if s.connected then { state := s, published := [], attempts := 0 }
  else if usub32 now s.lastMqttAttempt < 3000 then
    { state := s, published := [], attempts := 0 }
  else if connectOk then
    { state := { connected := true, lastMqttAttempt := now }
      published := [{ topic := topic_stat, payload := "online", retained := true },
                    publishUrlMsg ip]
      attempts := 1 }
  else
    { state := { connected := false, lastMqttAttempt := now }
      published := [], attempts := 1 }

end AIThinker

namespace CamTest

/-- Outcome of the external calls `takePhotoTo` makes in `cam_test.ino`. -/
structure Env where
  fbOk : Bool
  fbLen : Nat
  fsOpenOk : Bool
  fsWriteLen : Nat
deriving DecidableEq

/-- `takePhotoTo(path)` in `cam_test.ino`: false when no frame, false when the
file cannot be opened, otherwise `w == fb->len`. -/
def takePhotoTo (e : Env) : Bool :=
  if e.fbOk = false then false
  else if e.fsOpenOk = false then false
  else decide (e.fsWriteLen = e.fbLen)

/-- `handleCapture` in `cam_test.ino`: capture synchronously, 302 on success,
500 (`"Capture/Save failed"`) on failure. -/
def handleCapture (e : Env) : Nat :=
  if takePhotoTo e then 302 else 500

/-- The number of `mqtt.connect` attempts one call of `ensureMqtt` in
`cam_test.ino` makes, given the outcome of each successive attempt: the
`while (!mqtt.connected())` loop keeps attempting (with `delay(1000)` after
each failure) until an attempt succeeds. -/
def ensureMqttAttempts : List Bool → Nat
  | [] => 0
  | ok :: rest => 1 + (if ok then 0 else ensureMqttAttempts rest)

end CamTest

/-- Bool test that `hd` begins the list `s`. -/
def leadMatches : List Char → List Char → Bool
  | [], _ => true
  | _ :: _, [] => false
  | a :: as, b :: bs => a == b && leadMatches as bs

/-- Bool test that `pat` occurs as a contiguous run inside `s`. -/
def containsSub (pat : List Char) : List Char → Bool
  | [] => leadMatches pat []
  | c :: rest => leadMatches pat (c :: rest) || containsSub pat rest

namespace Assembler

/-- Modelled from the spec: the per-node state vocabulary of the Session
Assembler (spec section 3, per-node status record).  The hub-side coordinator
(the FastAPI service of `app.py`) is not under `src/`; only the node firmware
is, so the Assembler is modelled from the spec's words. -/
inductive NodeState
  | awaitingTriggerAck
  | capturing
  | uploading
  | uploaded
  | failed
  | timedOut
deriving DecidableEq

/-- Modelled from the spec: `uploaded`, `failed` and `timed_out` are the
terminal states of an attempt (spec section 3 invariant). -/
def NodeState.isTerminal : NodeState → Bool
  | .uploaded => true
  | .failed => true
  | .timedOut => true
  | _ => false

/-- Modelled from the spec: the session verdict vocabulary
{pending, complete, degraded, failed} (spec section 3). -/
inductive Verdict
  | pending
  | complete
  | degraded
  | failed
deriving DecidableEq

/-- Modelled from the spec: a Session record as tracked by the Session
Assembler — the expected roster, the per-node states, and the verdict
(spec section 3).  Times are elided; the deadline appears as the
`deadline` event below. -/
structure Session where
  expectedNodes : List Nat
  nodeStates : List (Nat × NodeState)
  verdict : Verdict
deriving DecidableEq

/-- Modelled from the spec: the events the Assembler consumes — a per-node
outcome/arrival report carrying the node's new state, and the deadline
firing (spec section 4.4). -/
inductive Event
  | report (node : Nat) (st : NodeState)
  | deadline
deriving DecidableEq

/-- Modelled from the spec: applying a report to the node map; events for an
already-terminal node attempt are idempotently ignored (spec section 4.4). -/
def updateNode (ns : List (Nat × NodeState)) (node : Nat) (st : NodeState) :
    List (Nat × NodeState) :=
  ns.map fun p => if p.1 = node ∧ p.2.isTerminal = false then (p.1, st) else p

/-- Modelled from the spec: the all-or-nothing verdict policy of section 4.4 —
`complete` if every expected node reached `uploaded`, `degraded` if at least
one but not all succeeded, `failed` if none did. -/
def computeVerdict (ns : List (Nat × NodeState)) : Verdict :=
  let succ := ns.countP fun p => p.2 = NodeState.uploaded
  if succ = ns.length then Verdict.complete
  else if 0 < succ then Verdict.degraded
  else Verdict.failed

/-- Modelled from the spec: one serialized event application of the Session
Assembler (spec sections 4.4 and 5).  A finalized session (verdict not
`pending`) ignores every later event; a report updates the node and, once all
nodes are terminal, finalizes; deadline expiry marks non-terminal nodes
`timed_out` and finalizes. -/
def applyEvent (s : Session) (e : Event) : Session :=
  if s.verdict ≠ Verdict.pending then s
  else
    match e with
    | .report n st =>
      let ns := updateNode s.nodeStates n st
      if ns.all fun p => p.2.isTerminal then
        { s with nodeStates := ns, verdict := computeVerdict ns }
      else
        { s with nodeStates := ns }
    | .deadline =>
      let ns := s.nodeStates.map fun p =>
        if p.2.isTerminal then p else (p.1, NodeState.timedOut)
      { s with nodeStates := ns, verdict := computeVerdict ns }

/-- Modelled from the spec: applying a whole event stream in order. -/
def applyEvents (s : Session) (es : List Event) : Session :=
  es.foldl applyEvent s

end Assembler

/-- The url message never lands on the status topic. -/
theorem publishUrlMsg_topic_beq (ip : String) :
    ((publishUrlMsg ip).topic == topic_stat) = false := rfl

/-- The url message's topic differs from the status topic. -/
theorem publishUrlMsg_topic_ne_stat (ip : String) : (publishUrlMsg ip).topic ≠ topic_stat := by
  have hne : topic_url ≠ topic_stat := by decide
  intro h
  exact hne h

/-- Characterization of a network-triggered pass once a frame is acquired: it
publishes exactly one status message, `"captured"` when both the filesystem
write and the upload succeeded, `"capture_failed"` otherwise. -/
theorem networkReport_char (ip : String) (env : CaptureEnv) (hfb : env.fbOk = true) :
    AIThinker.networkReport ip env =
      [{ topic := topic_stat
         payload :=
           if env.fsOpenOk && decide (env.fsWriteLen = env.fbLen)
               && decide (env.httpCode = 200) then "captured" else "capture_failed"
         retained := false }] := by
  rcases env with ⟨fb, len, op, wl, code⟩
  simp only at hfb
  subst hfb
  by_cases hop : op = true <;> by_cases hwl : wl = len <;> by_cases hc : code = 200 <;>
    simp [AIThinker.networkReport, AIThinker.loopCaptureStep, AIThinker.captureAndSend,
      publishUrlMsg, topic_url, topic_stat, hop, hwl, hc, List.filter,
      Bool.not_eq_true] at *

/-- C1, counterexample: a network-triggered attempt in which the frame is
acquired and the HTTP upload answers 200, but the filesystem open fails,
reports `"capture_failed"` — so the reported status is not `"captured"` if
and only if the response code is 200, refuting the claim. -/
theorem C1_counterexample :
    (CaptureEnv.mk true 100 false 0 200).httpCode = 200 ∧
    AIThinker.networkReport "10.0.0.1" (CaptureEnv.mk true 100 false 0 200) =
      [{ topic := topic_stat, payload := "capture_failed", retained := false }] :=
  ⟨rfl, rfl⟩

/-- C1, amended: for every network-triggered attempt in which a frame is
acquired, the reported status is `"captured"` if and only if both the local
filesystem write succeeded (open succeeded and the full frame was written)
and the HTTP response code is 200; in every other case (including HTTP 200
with a failed local write) the single report is `"capture_failed"`. -/
theorem C1_report_status (ip : String) (env : CaptureEnv) (hfb : env.fbOk = true) :
    (AIThinker.networkReport ip env =
        [{ topic := topic_stat, payload := "captured", retained := false }] ↔
      env.fsOpenOk = true ∧ env.fsWriteLen = env.fbLen ∧ env.httpCode = 200) ∧
    (AIThinker.networkReport ip env =
        [{ topic := topic_stat, payload := "captured", retained := false }] ∨
      AIThinker.networkReport ip env =
        [{ topic := topic_stat, payload := "capture_failed", retained := false }]) := by
  rw [networkReport_char ip env hfb]
  by_cases hop : env.fsOpenOk = true <;> by_cases hwl : env.fsWriteLen = env.fbLen <;>
    by_cases hc : env.httpCode = 200 <;>
    simp [hop, hwl, hc]

/-- C1, witness for the amended theorem at a fully successful attempt. -/
theorem C1_report_status_witness :
    (CaptureEnv.mk true 5 true 5 200).fbOk = true ∧
    (AIThinker.networkReport "10.0.0.1" (CaptureEnv.mk true 5 true 5 200) =
        [{ topic := topic_stat, payload := "captured", retained := false }] ∨
      AIThinker.networkReport "10.0.0.1" (CaptureEnv.mk true 5 true 5 200) =
        [{ topic := topic_stat, payload := "capture_failed", retained := false }]) :=
  ⟨rfl, (C1_report_status "10.0.0.1" (CaptureEnv.mk true 5 true 5 200) rfl).2⟩

/-- A network-triggered pass always publishes exactly one status message,
`"captured"` or `"capture_failed"`. -/
theorem networkReport_cases (ip : String) (env : CaptureEnv) :
    AIThinker.networkReport ip env =
      [{ topic := topic_stat, payload := "captured", retained := false }] ∨
    AIThinker.networkReport ip env =
      [{ topic := topic_stat, payload := "capture_failed", retained := false }] := by
  by_cases hfb : env.fbOk = true
  · rw [networkReport_char ip env hfb]
    by_cases h : env.fsOpenOk && decide (env.fsWriteLen = env.fbLen)
        && decide (env.httpCode = 200) = true <;> simp [h] <;> tauto
  · right
    rw [Bool.not_eq_true] at hfb
    simp [AIThinker.networkReport, AIThinker.loopCaptureStep, AIThinker.captureAndSend,
      hfb, List.filter, topic_stat]

/-- Whenever the network flag is set, the capture block behaves exactly as it
does on the pure network trigger: the web flag is coalesced. -/
theorem loopCaptureStep_mqtt (ip : String) (env : CaptureEnv) (s : AIThinker.Flags)
    (hm : s.triggerMqttCapture = true) :
    AIThinker.loopCaptureStep ip env s =
      AIThinker.loopCaptureStep ip env
        { triggerMqttCapture := true, triggerWebCapture := false } := by
  rcases s with ⟨mq, w⟩
  simp only at hm
  subst hm
  simp [AIThinker.loopCaptureStep]

/-- C2, counterexample: the outcome report of a fully successful
network-triggered attempt has payload exactly `"captured"`, which carries no
`node_id`, `session_id` or `attempt` field — refuting the claim that every
outcome report payload carries `{node_id, session_id, attempt, status}`. -/
theorem C2_counterexample :
    AIThinker.networkReport "10.0.0.1" (CaptureEnv.mk true 5 true 5 200) =
      [{ topic := topic_stat, payload := "captured", retained := false }] ∧
    containsSub "node_id".toList "captured".toList = false ∧
    containsSub "session_id".toList "captured".toList = false ∧
    containsSub "attempt".toList "captured".toList = false :=
  ⟨rfl, by decide, by decide, by decide⟩

/-- C2, amended: the outcome report a node publishes after a network-triggered
attempt is a single non-retained message on the fixed status topic whose
payload is the bare status string, `"captured"` or `"capture_failed"`; node
identity is only implicit in the shared topic and no session or attempt
identifiers are carried. -/
theorem C2_report_payload (ip : String) (env : CaptureEnv) (s : AIThinker.Flags)
    (hm : s.triggerMqttCapture = true) :
    (AIThinker.loopCaptureStep ip env s).published.filter
        (fun m => m.topic == topic_stat) =
      [{ topic := topic_stat, payload := "captured", retained := false }] ∨
    (AIThinker.loopCaptureStep ip env s).published.filter
        (fun m => m.topic == topic_stat) =
      [{ topic := topic_stat, payload := "capture_failed", retained := false }] := by
  rw [loopCaptureStep_mqtt ip env s hm]
  exact networkReport_cases ip env

/-- C2, witness for the amended theorem at a successful attempt. -/
theorem C2_report_payload_witness :
    (AIThinker.Flags.mk true false).triggerMqttCapture = true ∧
    ((AIThinker.loopCaptureStep "10.0.0.1" (CaptureEnv.mk true 5 true 5 200)
          (AIThinker.Flags.mk true false)).published.filter
        (fun m => m.topic == topic_stat) =
      [{ topic := topic_stat, payload := "captured", retained := false }] ∨
    (AIThinker.loopCaptureStep "10.0.0.1" (CaptureEnv.mk true 5 true 5 200)
          (AIThinker.Flags.mk true false)).published.filter
        (fun m => m.topic == topic_stat) =
      [{ topic := topic_stat, payload := "capture_failed", retained := false }]) :=
  ⟨rfl, C2_report_payload "10.0.0.1" (CaptureEnv.mk true 5 true 5 200)
    (AIThinker.Flags.mk true false) rfl⟩

/-- C3: when a frame is acquired but the local filesystem write fails (open
fails or a short write), the network-triggered attempt still performs the
HTTP upload of the in-memory image and still publishes its (failure) outcome
report — persistence failure suppresses neither. -/
theorem C3_fs_failure_still_uploads (ip : String) (env : CaptureEnv)
    (hfb : env.fbOk = true)
    (hfs : env.fsOpenOk = false ∨ ¬ env.fsWriteLen = env.fbLen) :
    (AIThinker.captureAndSend ip env true).uploadAttempted = true ∧
    AIThinker.networkReport ip env =
      [{ topic := topic_stat, payload := "capture_failed", retained := false }] := by
  constructor
  · simp [AIThinker.captureAndSend, hfb]
  · rw [networkReport_char ip env hfb]
    rcases hfs with h | h <;> simp [h]

/-- C3, witness: open failure with the upload path reachable. -/
theorem C3_fs_failure_still_uploads_witness :
    (CaptureEnv.mk true 5 false 0 200).fbOk = true ∧
    ((CaptureEnv.mk true 5 false 0 200).fsOpenOk = false ∨
      ¬ (CaptureEnv.mk true 5 false 0 200).fsWriteLen = (CaptureEnv.mk true 5 false 0 200).fbLen) ∧
    (AIThinker.captureAndSend "10.0.0.1" (CaptureEnv.mk true 5 false 0 200) true).uploadAttempted
      = true :=
  ⟨rfl, Or.inl rfl,
    (C3_fs_failure_still_uploads "10.0.0.1" (CaptureEnv.mk true 5 false 0 200) rfl
      (Or.inl rfl)).1⟩

/-- C4: when a local (web) capture request is pending together with a network
(MQTT) trigger, one pass of the loop performs exactly one capture, with the
network trigger's upload behaviour (`doUpload = true`), clears both flags,
and publishes exactly one outcome report. -/
theorem C4_coalesced_trigger (ip : String) (env : CaptureEnv) (s : AIThinker.Flags)
    (hm : s.triggerMqttCapture = true) (_hw : s.triggerWebCapture = true) :
    (AIThinker.loopCaptureStep ip env s).captures = 1 ∧
    (AIThinker.loopCaptureStep ip env s).doUpload = true ∧
    (AIThinker.loopCaptureStep ip env s).flags =
      { triggerMqttCapture := false, triggerWebCapture := false } ∧
    ((AIThinker.loopCaptureStep ip env s).published.filter
        (fun m => m.topic == topic_stat)).length = 1 := by
  rw [loopCaptureStep_mqtt ip env s hm]
  refine ⟨rfl, rfl, rfl, ?_⟩
  rcases networkReport_cases ip env with h | h <;>
    simpa [AIThinker.networkReport] using congrArg List.length h

/-- C4, witness: both flags pending at a concrete environment. -/
theorem C4_coalesced_trigger_witness :
    (AIThinker.Flags.mk true true).triggerMqttCapture = true ∧
    (AIThinker.Flags.mk true true).triggerWebCapture = true ∧
    (AIThinker.loopCaptureStep "10.0.0.1" (CaptureEnv.mk true 5 true 5 200)
      (AIThinker.Flags.mk true true)).captures = 1 :=
  ⟨rfl, rfl,
    (C4_coalesced_trigger "10.0.0.1" (CaptureEnv.mk true 5 true 5 200)
      (AIThinker.Flags.mk true true) rfl rfl).1⟩

/-- C5: when the sensor returns no frame, the attempt ends immediately as
failed: the returned flag is false, the filesystem branch never runs, no
upload is attempted, nothing (in particular no retrieval-address URL) is
published inside `captureAndSend`, and the network-triggered pass publishes
exactly the single `"capture_failed"` report. -/
theorem C5_no_frame (ip : String) (env : CaptureEnv) (hfb : env.fbOk = false) :
    (AIThinker.captureAndSend ip env true).ret = false ∧
    (AIThinker.captureAndSend ip env true).fsAttempted = false ∧
    (AIThinker.captureAndSend ip env true).uploadAttempted = false ∧
    (AIThinker.captureAndSend ip env true).published = [] ∧
    (AIThinker.loopCaptureStep ip env
        { triggerMqttCapture := true, triggerWebCapture := false }).published =
      [{ topic := topic_stat, payload := "capture_failed", retained := false }] := by
  refine ⟨?_, ?_, ?_, ?_, ?_⟩ <;>
    simp [AIThinker.captureAndSend, AIThinker.loopCaptureStep, hfb]

/-- C5, witness: a sensor failure environment. -/
theorem C5_no_frame_witness :
    (CaptureEnv.mk false 0 true 0 200).fbOk = false ∧
    (AIThinker.captureAndSend "10.0.0.1" (CaptureEnv.mk false 0 true 0 200) true).ret = false :=
  ⟨rfl, (C5_no_frame "10.0.0.1" (CaptureEnv.mk false 0 true 0 200) rfl).1⟩

/-- C6: once a session's verdict has left `pending`, no later event stream —
including duplicate terminal events injected after finalization — changes the
verdict or any other part of the finalized session record. -/
theorem C6_verdict_final (s : Assembler.Session)
    (h : s.verdict ≠ Assembler.Verdict.pending) (es : List Assembler.Event) :
    Assembler.applyEvents s es = s := by
  induction es with
  | nil => rfl
  | cons e es ih =>
    have h1 : Assembler.applyEvent s e = s := if_pos h
    show List.foldl Assembler.applyEvent (Assembler.applyEvent s e) es = s
    rw [h1]
    exact ih

/-- C6, witness: a finalized (degraded) session ignores a duplicate terminal
report and a late deadline. -/
theorem C6_verdict_final_witness :
    (Assembler.Session.mk [1, 2] [(1, Assembler.NodeState.uploaded),
        (2, Assembler.NodeState.failed)] Assembler.Verdict.degraded).verdict ≠
      Assembler.Verdict.pending ∧
    Assembler.applyEvents
      (Assembler.Session.mk [1, 2] [(1, Assembler.NodeState.uploaded),
        (2, Assembler.NodeState.failed)] Assembler.Verdict.degraded)
      [Assembler.Event.report 2 Assembler.NodeState.uploaded, Assembler.Event.deadline] =
      Assembler.Session.mk [1, 2] [(1, Assembler.NodeState.uploaded),
        (2, Assembler.NodeState.failed)] Assembler.Verdict.degraded :=
  ⟨by decide,
    C6_verdict_final
      (Assembler.Session.mk [1, 2] [(1, Assembler.NodeState.uploaded),
        (2, Assembler.NodeState.failed)] Assembler.Verdict.degraded)
      (by decide)
      [Assembler.Event.report 2 Assembler.NodeState.uploaded, Assembler.Event.deadline]⟩

/-- Every message published inside `captureAndSend` is the retained
retrieval-address message. -/
theorem captureAndSend_published_mem (ip : String) (env : CaptureEnv) (doUpload : Bool)
    (m : Msg) (hm : m ∈ (AIThinker.captureAndSend ip env doUpload).published) :
    m = publishUrlMsg ip := by
  cases hfb : env.fbOk with
  | false => simp [AIThinker.captureAndSend, hfb] at hm
  | true =>
    cases hfs : env.fsOpenOk && decide (env.fsWriteLen = env.fbLen) with
    | false => simp [AIThinker.captureAndSend, hfb, hfs] at hm
    | true =>
      simp [AIThinker.captureAndSend, hfb, hfs] at hm
      exact hm

/-- Every message one loop pass publishes is the retained url message or one
of the two non-retained outcome reports. -/
theorem loop_published_shape (ip : String) (env : CaptureEnv) (s : AIThinker.Flags)
    (m : Msg) (hm : m ∈ (AIThinker.loopCaptureStep ip env s).published) :
    m = publishUrlMsg ip ∨
    m = { topic := topic_stat, payload := "captured", retained := false } ∨
    m = { topic := topic_stat, payload := "capture_failed", retained := false } := by
  unfold AIThinker.loopCaptureStep at hm
  by_cases hc : (s.triggerMqttCapture || s.triggerWebCapture) = true <;>
    simp [hc] at hm
  rcases hm with hm | hm
  · exact Or.inl (captureAndSend_published_mem ip env _ m hm)
  · by_cases hd : s.triggerMqttCapture = true <;> simp [hd] at hm
    by_cases hr : (AIThinker.captureAndSend ip env true).ret = true <;>
      simp [hr] at hm <;> simp [hm]

/-- C7: on a successful (re)connect the agent publishes exactly its liveness
announcement `"online"` and its current retrieval address, both retained; the
only status-topic message it publishes then is the liveness announcement, so
historical outcome reports are never replayed; and outcome reports themselves
are published by the capture block exactly once per network-triggered
attempt, non-retained. -/
theorem C7_reconnect_publishes (ip : String) (now : Nat) (s : AIThinker.ConnState)
    (h1 : s.connected = false) (h2 : 3000 ≤ AIThinker.usub32 now s.lastMqttAttempt) :
    (AIThinker.ensureMqtt ip now true s).published =
      [{ topic := topic_stat, payload := "online", retained := true }, publishUrlMsg ip] ∧
    (∀ m ∈ (AIThinker.ensureMqtt ip now true s).published,
      m.retained = true ∧ (m.topic = topic_stat → m.payload = "online")) ∧
    (∀ env : CaptureEnv, ∀ s₂ : AIThinker.Flags,
      ∀ m ∈ (AIThinker.loopCaptureStep ip env s₂).published,
        m.topic = topic_stat → m.retained = false) ∧
    (∀ env : CaptureEnv, ∀ s₂ : AIThinker.Flags, s₂.triggerMqttCapture = true →
      ((AIThinker.loopCaptureStep ip env s₂).published.filter
          (fun m => m.topic == topic_stat)).length = 1) := by
  have hpub : (AIThinker.ensureMqtt ip now true s).published =
      [{ topic := topic_stat, payload := "online", retained := true }, publishUrlMsg ip] := by
    unfold AIThinker.ensureMqtt
    rw [if_neg (by simp [h1]), if_neg (by omega)]
    simp
  refine ⟨hpub, ?_, ?_, ?_⟩
  · intro m hm
    rw [hpub] at hm
    simp only [List.mem_cons, List.not_mem_nil, or_false] at hm
    rcases hm with hm | hm
    · subst hm
      exact ⟨rfl, fun _ => rfl⟩
    · subst hm
      exact ⟨rfl, fun h => absurd h (publishUrlMsg_topic_ne_stat ip)⟩
  · intro env s₂ m hm ht
    rcases loop_published_shape ip env s₂ m hm with h | h | h
    · rw [h] at ht
      exact absurd ht (publishUrlMsg_topic_ne_stat ip)
    · simp [h]
    · simp [h]
  · intro env s₂ hmq
    rw [loopCaptureStep_mqtt ip env s₂ hmq]
    rcases networkReport_cases ip env with h | h <;>
      simpa [AIThinker.networkReport] using congrArg List.length h

/-- C7, witness at a cold start (never connected, last attempt at 0, clock at
3000 ms). -/
theorem C7_reconnect_publishes_witness :
    (AIThinker.ConnState.mk false 0).connected = false ∧
    3000 ≤ AIThinker.usub32 3000 (AIThinker.ConnState.mk false 0).lastMqttAttempt ∧
    (AIThinker.ensureMqtt "10.0.0.1" 3000 true (AIThinker.ConnState.mk false 0)).published =
      [{ topic := topic_stat, payload := "online", retained := true },
       publishUrlMsg "10.0.0.1"] :=
  ⟨rfl, by decide,
    (C7_reconnect_publishes "10.0.0.1" 3000 (AIThinker.ConnState.mk false 0) rfl
      (by decide)).1⟩

/-- C8, counterexample: in the older firmware (`cam_test.ino`, also cited by
the claim) one call of `ensureMqtt` retries in a blocking loop — with the
broker unreachable for the first two attempts it performs three connection
attempts, refuting "every call terminates after at most one attempt". -/
theorem C8_counterexample :
    CamTest.ensureMqttAttempts [false, false, true] = 3 ∧
    ¬ CamTest.ensureMqttAttempts [false, false, true] ≤ 1 := by
  constructor <;> decide

/-- C8, amended: in the current firmware (`AI_Thinker.ino`) every call of
`ensureMqtt` makes at most one connection attempt even when the broker stays
unreachable, and an attempt is only made when the node is disconnected and at
least 3000 ms have elapsed since the previous attempt, whose time is then
recorded; the older `cam_test.ino` firmware instead retries in an unbounded
blocking loop. -/
theorem C8_bounded_backoff (ip : String) (now : Nat) (connectOk : Bool)
    (s : AIThinker.ConnState) :
    (AIThinker.ensureMqtt ip now connectOk s).attempts ≤ 1 ∧
    ((AIThinker.ensureMqtt ip now connectOk s).attempts = 1 →
      s.connected = false ∧ 3000 ≤ AIThinker.usub32 now s.lastMqttAttempt ∧
      (AIThinker.ensureMqtt ip now connectOk s).state.lastMqttAttempt = now) := by
  unfold AIThinker.ensureMqtt
  by_cases h1 : s.connected = true
  · simp [h1]
  · rw [Bool.not_eq_true] at h1
    by_cases h2 : AIThinker.usub32 now s.lastMqttAttempt < 3000
    · simp [h1, h2]
    · cases connectOk <;> simp [h1, h2] <;> omega

/-- C8, witness: a failed attempt at 5000 ms after a last attempt at 0. -/
theorem C8_bounded_backoff_witness :
    (AIThinker.ensureMqtt "10.0.0.1" 5000 false (AIThinker.ConnState.mk false 0)).attempts = 1 ∧
    ((AIThinker.ConnState.mk false 0).connected = false ∧
      3000 ≤ AIThinker.usub32 5000 (AIThinker.ConnState.mk false 0).lastMqttAttempt ∧
      (AIThinker.ensureMqtt "10.0.0.1" 5000 false
        (AIThinker.ConnState.mk false 0)).state.lastMqttAttempt = 5000) :=
  ⟨by decide,
    (C8_bounded_backoff "10.0.0.1" 5000 false (AIThinker.ConnState.mk false 0)).2 (by decide)⟩

/-- C9: the current firmware's `/capture` handler always answers 302 and only
sets the web flag, the web-only trigger pass publishes nothing on the status
topic (a locally-triggered failure is never signalled), while the older
firmware's synchronous handler answers 500 exactly when the capture-and-save
fails and 302 when it succeeds. -/
theorem C9_local_capture_silent :
    (∀ s : AIThinker.Flags, (AIThinker.handleCapture s).2 = 302) ∧
    (∀ s : AIThinker.Flags,
      (AIThinker.handleCapture s).1 = { s with triggerWebCapture := true }) ∧
    (∀ ip : String, ∀ env : CaptureEnv,
      ∀ m ∈ (AIThinker.loopCaptureStep ip env
          { triggerMqttCapture := false, triggerWebCapture := true }).published,
        m.topic ≠ topic_stat) ∧
    CamTest.handleCapture (CamTest.Env.mk false 0 true 0) = 500 ∧
    CamTest.handleCapture (CamTest.Env.mk true 5 false 0) = 500 ∧
    CamTest.handleCapture (CamTest.Env.mk true 5 true 5) = 302 := by
  refine ⟨fun s => rfl, fun s => rfl, ?_, rfl, rfl, rfl⟩
  intro ip env m hm
  have hshape : m = publishUrlMsg ip := by
    have : (AIThinker.loopCaptureStep ip env
        { triggerMqttCapture := false, triggerWebCapture := true }).published =
        (AIThinker.captureAndSend ip env false).published := by
      simp [AIThinker.loopCaptureStep]
    rw [this] at hm
    exact captureAndSend_published_mem ip env false m hm
  rw [hshape]
  simp [publishUrlMsg, topic_url, topic_stat]

/-- C9, witness: the web-only pass at a failing capture publishes nothing on
the status topic. -/
theorem C9_local_capture_silent_witness :
    (AIThinker.handleCapture (AIThinker.Flags.mk false false)).2 = 302 :=
  C9_local_capture_silent.1 (AIThinker.Flags.mk false false)

/-- C10: the MQTT callback sets the network capture flag exactly when the
topic is the command topic and the trimmed, lowercased payload equals
`"capture"`; it never touches the web flag, and on every other message it
leaves the whole flag state unchanged. -/
theorem C10_callback_iff (t : String) (p : List Char) (s : AIThinker.Flags) :
    ((AIThinker.mqttCallback t p s).triggerMqttCapture = true ↔
      (s.triggerMqttCapture = true ∨
        (t = topic_cmd ∧ normalizeMsg p = "capture".toList))) ∧
    (AIThinker.mqttCallback t p s).triggerWebCapture = s.triggerWebCapture ∧
    (AIThinker.mqttCallback t p s = s ∨
      (t = topic_cmd ∧ normalizeMsg p = "capture".toList ∧
        AIThinker.mqttCallback t p s = { s with triggerMqttCapture := true })) := by
  unfold AIThinker.mqttCallback
  by_cases h : t = topic_cmd ∧ normalizeMsg p = "capture".toList
  · rw [if_pos h]
    exact ⟨⟨fun _ => Or.inr h, fun _ => rfl⟩, rfl, Or.inr ⟨h.1, h.2, rfl⟩⟩
  · rw [if_neg h]
    refine ⟨⟨fun hmq => Or.inl hmq, ?_⟩, rfl, Or.inl rfl⟩
    intro hor
    rcases hor with hmq | hab
    · exact hmq
    · exact absurd hab h

/-- C10, witness: a command-topic payload `"  CAPture\r\n"` triggers after
trimming and lowercasing, while a different payload leaves the flags alone. -/
theorem C10_callback_iff_witness :
    ((AIThinker.mqttCallback "esp32cam/cmd" "  CAPture\r\n".toList
        (AIThinker.Flags.mk false false)).triggerMqttCapture = true ↔
      ((AIThinker.Flags.mk false false).triggerMqttCapture = true ∨
        ("esp32cam/cmd" = topic_cmd ∧
          normalizeMsg "  CAPture\r\n".toList = "capture".toList))) :=
  (C10_callback_iff "esp32cam/cmd" "  CAPture\r\n".toList
    (AIThinker.Flags.mk false false)).1

end WoundDome
